import Mathlib

/-!
Shallow embedding of the Expense-Tracker backend
(src/backend/db_helper.py and src/backend/server.py).

The storage engine is modelled as an explicit state: a list of persisted
rows plus the next auto-increment id.  Each data-access operation of
`ExpenseDatabase` becomes a pure function on that state, translated from
the SQL statement it executes.  The HTTP endpoints of server.py become
functions from the module-level `db` handle (`Option DBState`: `none`
models the startup connection failure that leaves `db = None`) and the
request data, returning the HTTP outcome, the resulting storage state,
and the list of data-access calls the handler performed (used to state
"storage is never queried / no insert begins" claims).

Amounts are modelled as rationals: every claim about amounts concerns
only ordering and equality, never float rounding.  Calendar dates are
modelled as year/month/day triples with the lexicographic order that
ISO-8601 date comparison implements.
-/

namespace ExpenseTracker

/-- A calendar date (`datetime.date` at the boundary). -/
structure Date where
  year : Nat
  month : Nat
  day : Nat
deriving DecidableEq, Repr

/-- Strict comparison of calendar dates: lexicographic on
(year, month, day), which is how `datetime.date` ordering behaves. -/
def Date.lt (a b : Date) : Bool :=
  decide (a.year < b.year) ||
    (decide (a.year = b.year) &&
      (decide (a.month < b.month) ||
        (decide (a.month = b.month) && decide (a.day < b.day))))

/-- Reversed strict comparison, as used by `start_date > end_date` in
`get_expense_summary`. -/
def Date.gt (a b : Date) : Bool := Date.lt b a

/-- Non-strict comparison of calendar dates, as used by SQL `BETWEEN`. -/
def Date.le (a b : Date) : Bool := Date.lt a b || decide (a = b)

/-- server.py `Expense` pydantic model: a validated expense item
`{category, notes, amount}`.  A value of this type exists only for
payloads that passed the model's validation (`amount` field declared
with `Field(gt=0)`). -/
structure Expense where
  category : String
  notes : String
  amount : ℚ
deriving DecidableEq, Repr

/-- A raw candidate item of the JSON request body, before pydantic
validation: each field may be missing. -/
structure RawExpense where
  category : Option String
  notes : Option String
  amount : Option ℚ
deriving DecidableEq, Repr

/-- Pydantic validation of one body item against the `Expense` model:
`category` and `notes` must be present strings (no further constraint),
`amount` must be present and strictly positive (`Field(gt=0)`).
Returns `none` when validation fails (HTTP 422 at the boundary). -/
def parseExpense (r : RawExpense) : Option Expense :=
  match r.category, r.notes, r.amount with
  | some c, some n, some a => if 0 < a then some ⟨c, n, a⟩ else none
  | _, _, _ => none

/-- Framework validation of the whole `List[Expense]` request body:
every item must validate; any failing item rejects the whole payload
before the handler body runs. -/
def parseBatch : List RawExpense → Option (List Expense)
  | [] => some []
  | r :: rs =>
    match parseExpense r, parseBatch rs with
    | some e, some es => some (e :: es)
    | _, _ => none

/-- One persisted row of the `expenses` table. -/
structure Row where
  id : Nat
  expense_date : Date
  category : String
  notes : String
  amount : ℚ
deriving DecidableEq, Repr

/-- The storage state: the persisted rows (in insertion order) and the
next auto-increment id the engine will assign. -/
structure DBState where
  rows : List Row
  nextId : Nat
deriving DecidableEq, Repr

namespace DbHelper

/-- db_helper.py `fetch_expenses_for_date`:
`SELECT * FROM expenses WHERE expense_date = %s`. -/
def fetch_expenses_for_date (st : DBState) (d : Date) : List Row :=
  st.rows.filter (fun r => decide (r.expense_date = d))

/-- db_helper.py `delete_expenses_for_date`:
`DELETE FROM expenses WHERE expense_date = %s`; returns
`cursor.rowcount`, the number of rows removed, and the state after the
commit. -/
def delete_expenses_for_date (st : DBState) (d : Date) : Nat × DBState :=
  ((st.rows.filter (fun r => decide (r.expense_date = d))).length,
   ⟨st.rows.filter (fun r => decide (¬ r.expense_date = d)), st.nextId⟩)

/-- db_helper.py `insert_expense`:
`INSERT INTO expenses (expense_date, category, notes, amount) VALUES
(%s, %s, %s, %s)`; returns `cursor.lastrowid` and the state after the
commit. -/
def insert_expense (st : DBState) (d : Date) (category notes : String)
    (amount : ℚ) : Nat × DBState :=
  (st.nextId,
   ⟨st.rows ++ [⟨st.nextId, d, category, notes, amount⟩], st.nextId + 1⟩)

/-- Fold one row's amount into the category-keyed accumulator of the
`GROUP BY category` aggregation. -/
def addToSummary : List (String × ℚ) → String → ℚ → List (String × ℚ)
  | [], c, a => [(c, a)]
  | (c', t) :: rest, c, a =>
    if c' = c then (c', t + a) :: rest else (c', t) :: addToSummary rest c a

/-- db_helper.py `fetch_expense_summary`:
`SELECT category, SUM(amount) FROM expenses WHERE expense_date BETWEEN
%s AND %s GROUP BY category`; rows in the inclusive range, grouped by
category with summed amounts. -/
def fetch_expense_summary (st : DBState) (s e : Date) : List (String × ℚ) :=
  (st.rows.filter
      (fun r => Date.le s r.expense_date && Date.le r.expense_date e)).foldl
    (fun acc r => addToSummary acc r.category r.amount) []

end DbHelper

/-- One call made by a handler to the data-access component. -/
inductive DBCall where
  | fetch (d : Date)
  | insert (d : Date) (category notes : String) (amount : ℚ)
  | delete (d : Date)
  | summary (s e : Date)
deriving DecidableEq, Repr

/-- The outcome of handling one HTTP request: the response (`.error c`
is an HTTP error with status code `c`), the storage state afterwards,
and the data-access calls the handler issued, in order. -/
structure EndpointResult (α : Type) where
  response : Except Nat α
  db : Option DBState
  calls : List DBCall

/-- server.py `ExpenseCreateResponse` (the human-readable `message`
field, a formatted string, is not modelled). -/
structure CreateResponse where
  inserted_count : Nat
  inserted_ids : List Nat
deriving DecidableEq, Repr

/-- server.py `ExpenseDeleteResponse` (again without `message`). -/
structure DeleteResponse where
  deleted_count : Nat
deriving DecidableEq, Repr

/-- The body of the `/health` response. -/
structure HealthStatus where
  status : String
  database : String
deriving DecidableEq, Repr

/-- Whether the health probe's read (`db.fetch_expenses_for_date(
date.today())`) raised a driver error.  The raise is environmental
(network, server), so it is a parameter of the model. -/
inductive ProbeOutcome where
  | ok
  | err
deriving DecidableEq, Repr

/-- How FastAPI serializes one fetched row through
`response_model=List[Expense]`: only the fields declared on the
`Expense` model survive; `id` and `expense_date` are dropped. -/
def expense_view (r : Row) : Expense :=
  ⟨r.category, r.notes, r.amount⟩

namespace Server

/-- server.py `health_check` (GET /health).  The mutable dict starts at
`{status: healthy, database: disconnected}`; `db` absent leaves
`unhealthy/disconnected`, a failing probe read gives `degraded/error`,
a successful one gives `healthy/connected`. -/
def health_check (db : Option DBState) (probe : ProbeOutcome) : HealthStatus :=
  match db with
  | none => ⟨"unhealthy", "disconnected"⟩
  | some _ =>
    match probe with
    | .ok => ⟨"healthy", "connected"⟩
    | .err => ⟨"degraded", "error"⟩

/-- server.py `get_expenses_for_date` (GET /expenses/{date}): 503 when
`db` is `None`, otherwise one fetch, serialized through
`response_model=List[Expense]`. -/
def get_expenses_for_date (db : Option DBState) (d : Date) :
    EndpointResult (List Expense) :=
  match db with
  | none => ⟨.error 503, none, []⟩
  | some st =>
    ⟨.ok ((DbHelper.fetch_expenses_for_date st d).map expense_view),
     some st, [.fetch d]⟩

/-- The handler's insert loop over the already-validated items:
`for expense in expenses: inserted_ids.append(db.insert_expense(...))`.
Returns the collected ids, the final state, and the insert calls made. -/
def insertAll (st : DBState) (d : Date) :
    List Expense → List Nat × DBState × List DBCall
  | [] => ([], st, [])
  | e :: es =>
    let p := DbHelper.insert_expense st d e.category e.notes e.amount
    let q := insertAll p.2 d es
    (p.1 :: q.1, q.2.1, .insert d e.category e.notes e.amount :: q.2.2)

/-- server.py `add_expenses_for_date` (POST /expenses/{date}).  The
framework validates the whole body against `List[Expense]` first (422
on failure, handler never entered, no insert made); then the handler
rejects with 503 when `db` is `None`; otherwise it inserts the items in
order and answers with `len(inserted_ids)` and the ids. -/
def add_expenses_for_date (db : Option DBState) (d : Date)
    (body : List RawExpense) : EndpointResult CreateResponse :=
  match parseBatch body with
  | none => ⟨.error 422, db, []⟩
  | some es =>
    match db with
    | none => ⟨.error 503, none, []⟩
    | some st =>
      let r := insertAll st d es
      ⟨.ok ⟨r.1.length, r.1⟩, some r.2.1, r.2.2⟩

/-- server.py `delete_expenses_for_date` (DELETE /expenses/{date}):
503 when `db` is `None`, otherwise one delete call whose row count is
echoed back. -/
def delete_expenses_for_date (db : Option DBState) (d : Date) :
    EndpointResult DeleteResponse :=
  match db with
  | none => ⟨.error 503, none, []⟩
  | some st =>
    let p := DbHelper.delete_expenses_for_date st d
    ⟨.ok ⟨p.1⟩, some p.2, [.delete d]⟩

/-- server.py `get_expense_summary` (GET /summary): 503 when `db` is
`None`; then `start_date > end_date` is rejected with 400 before any
storage call; otherwise one summary query. -/
def get_expense_summary (db : Option DBState) (s e : Date) :
    EndpointResult (List (String × ℚ)) :=
  match db with
  | none => ⟨.error 503, none, []⟩
  | some st =>
    if Date.gt s e then ⟨.error 400, some st, []⟩
    else ⟨.ok (DbHelper.fetch_expense_summary st s e), some st, [.summary s e]⟩

end Server

/-!
Resource-lifecycle model of `ExpenseDatabase._get_db_cursor`
(db_helper.py).  The context manager's control flow is deterministic
given which of its steps succeed, so a run is a function of a scenario:
the `commit` flag the operation passed, whether `mysql.connector.connect`
succeeded, whether `conn.cursor(...)` succeeded, whether the statement
executed in the `with` body raised a driver error, and what
`conn.is_connected()` reports during handling.  A run yields the
ordered list of driver events performed and whether the context manager
re-raised an error to its caller.
-/

/-- A driver-level event performed by `_get_db_cursor`. -/
inductive Ev where
  | connect
  | acquireCursor
  | execute
  | commit
  | rollback
  | closeCursor
  | closeConn
deriving DecidableEq, Repr

/-- One scenario of `_get_db_cursor`: the `commit` argument, which
steps succeed, and the connection's `is_connected()` report during
error handling and cleanup. -/
structure CursorScenario where
  commit : Bool
  connectOk : Bool
  cursorOk : Bool
  bodyErr : Bool
  connected : Bool
deriving DecidableEq, Repr

/-- The run of `_get_db_cursor` on a scenario, following the source's
`try/except mysql.connector.Error/finally` shape: on success with
`commit=True` and a live connection, commit; on a driver error, roll
back when `commit=True` and the connection is live, then re-raise; the
`finally` block closes the cursor when one was acquired and closes the
connection when it is live.  Returns (events in order, whether an error
propagates to the caller). -/
def run_get_db_cursor (s : CursorScenario) : List Ev × Bool :=
  if s.connectOk = false then
    ([], true)
  else if s.cursorOk = false then
    ([Ev.connect] ++ (if s.commit && s.connected then [Ev.rollback] else []) ++
       (if s.connected then [Ev.closeConn] else []),
     true)
  else if s.bodyErr then
    ([Ev.connect, Ev.acquireCursor, Ev.execute] ++
       (if s.commit && s.connected then [Ev.rollback] else []) ++
       [Ev.closeCursor] ++ (if s.connected then [Ev.closeConn] else []),
     true)
  else
    ([Ev.connect, Ev.acquireCursor, Ev.execute] ++
       (if s.commit && s.connected then [Ev.commit] else []) ++
       [Ev.closeCursor] ++ (if s.connected then [Ev.closeConn] else []),
     false)

/-!
Closed forms for the POST handler's insert loop, used to reason about
id assignment and row layout.
-/

/-- The ids the auto-increment engine hands out to `n` consecutive
inserts starting from `base`. -/
def genIds (base : Nat) : Nat → List Nat
  | 0 => []
  | n + 1 => base :: genIds (base + 1) n

/-- The rows persisted for the items `es` inserted in order for date
`d`, with ids starting from `base`. -/
def genRows (base : Nat) (d : Date) : List Expense → List Row
  | [] => []
  | e :: es => ⟨base, d, e.category, e.notes, e.amount⟩ :: genRows (base + 1) d es

/-- The data-access calls the insert loop performs for the items `es`. -/
def genCalls (d : Date) (es : List Expense) : List DBCall :=
  es.map (fun e => .insert d e.category e.notes e.amount)

/-- Sample dates for concrete evaluations. -/
def d0 : Date := ⟨2024, 8, 1⟩

def d1 : Date := ⟨2024, 12, 25⟩

theorem genIds_length (base n : Nat) : (genIds base n).length = n := by
  induction n generalizing base with
  | zero => rfl
  | succ n ih => simp [genIds, ih]

/-- The insert loop, in closed form: ids are consecutive from the
state's `nextId`, the new rows are appended after the existing ones in
submission order, and one insert call is made per item. -/
theorem insertAll_eq (d : Date) :
    ∀ (es : List Expense) (st : DBState),
      Server.insertAll st d es =
        (genIds st.nextId es.length,
         ⟨st.rows ++ genRows st.nextId d es, st.nextId + es.length⟩,
         genCalls d es) := by
  intro es
  induction es with
  | nil =>
    intro st
    simp [Server.insertAll, genIds, genRows, genCalls]
  | cons e es ih =>
    intro st
    simp only [Server.insertAll, DbHelper.insert_expense, ih, genIds, genRows,
      genCalls, List.map_cons, List.append_assoc, List.singleton_append,
      List.length_cons]
    have h : st.nextId + 1 + es.length = st.nextId + (es.length + 1) := by omega
    rw [h]

/-- One body item fails pydantic validation exactly when a field is
missing or the amount is present but not strictly positive. -/
theorem parseExpense_eq_none_iff (r : RawExpense) :
    parseExpense r = none ↔
      r.category = none ∨ r.notes = none ∨ r.amount = none ∨
        ∃ a, r.amount = some a ∧ a ≤ 0 := by
  obtain ⟨c, n, a⟩ := r
  cases c <;> cases n <;> cases a <;> simp [parseExpense, not_lt]

/-- The body validation rejects exactly when some item fails. -/
theorem parseBatch_eq_none_iff (body : List RawExpense) :
    parseBatch body = none ↔ ∃ r ∈ body, parseExpense r = none := by
  induction body with
  | nil => simp [parseBatch]
  | cons r rs ih =>
    cases hr : parseExpense r <;> cases hrs : parseBatch rs <;>
      simp [parseBatch, hr, hrs, ih.symm]

/-- A validated batch has as many items as the submitted body. -/
theorem parseBatch_length (body : List RawExpense) (es : List Expense)
    (h : parseBatch body = some es) : es.length = body.length := by
  induction body generalizing es with
  | nil =>
    simp [parseBatch] at h
    simp [← h]
  | cons r rs ih =>
    cases hr : parseExpense r <;> cases hrs : parseBatch rs <;>
      simp [parseBatch, hr, hrs] at h
    rw [← h]
    simp [ih _ hrs]

/-- The POST handler answers 422 exactly when the body fails the
`List[Expense]` validation, whatever the `db` handle is. -/
theorem add_expenses_422_iff (db : Option DBState) (d : Date)
    (body : List RawExpense) :
    (Server.add_expenses_for_date db d body).response = Except.error 422 ↔
      parseBatch body = none := by
  cases hpb : parseBatch body <;> cases db <;>
    simp [Server.add_expenses_for_date, hpb]

/-- C1: a batch containing an item whose amount is present but not
strictly positive is rejected with the validation outcome 422 before
the handler runs: the storage handle is left exactly as it was and no
data-access call (in particular no insert) is made. -/
theorem add_expenses_rejects_nonpositive_amount (db : Option DBState)
    (d : Date) (body : List RawExpense)
    (h : ∃ r ∈ body, ∃ a, r.amount = some a ∧ a ≤ 0) :
    Server.add_expenses_for_date db d body = ⟨Except.error 422, db, []⟩ := by
  obtain ⟨r, hr, a, ha, hle⟩ := h
  have hre : parseExpense r = none :=
    (parseExpense_eq_none_iff r).mpr (Or.inr (Or.inr (Or.inr ⟨a, ha, hle⟩)))
  have hb : parseBatch body = none :=
    (parseBatch_eq_none_iff body).mpr ⟨r, hr, hre⟩
  simp [Server.add_expenses_for_date, hb]

/-- Witness for C1 at a concrete batch holding an item of amount -1. -/
theorem add_expenses_rejects_nonpositive_amount_witness :
    (∃ r ∈ ([⟨some "Food", some "Test", some (-1)⟩] : List RawExpense),
        ∃ a, r.amount = some a ∧ a ≤ 0) ∧
      Server.add_expenses_for_date (some ⟨[], 1⟩) d0
          [⟨some "Food", some "Test", some (-1)⟩] =
        ⟨Except.error 422, some ⟨[], 1⟩, []⟩ := by
  have h : ∃ r ∈ ([⟨some "Food", some "Test", some (-1)⟩] : List RawExpense),
      ∃ a, r.amount = some a ∧ a ≤ 0 :=
    ⟨⟨some "Food", some "Test", some (-1)⟩, by simp, -1, rfl, by norm_num⟩
  exact ⟨h, add_expenses_rejects_nonpositive_amount _ _ _ h⟩

/-- C10: the empty batch succeeds with count 0 and no ids, makes no
data-access call at all, and leaves the storage state unchanged. -/
theorem add_expenses_empty_batch (st : DBState) (d : Date) :
    Server.add_expenses_for_date (some st) d [] =
      ⟨Except.ok ⟨0, []⟩, some st, []⟩ := rfl

/-- C3 counterexample: a batch whose single item carries empty-string
`category` and `notes` passes validation and is inserted — it is not
rejected, and a record is persisted. -/
theorem add_expenses_accepts_empty_text :
    Server.add_expenses_for_date (some ⟨[], 1⟩) d0
        [⟨some "", some "", some 5⟩] =
      ⟨Except.ok ⟨1, [1]⟩, some ⟨[⟨1, d0, "", "", 5⟩], 2⟩,
       [DBCall.insert d0 "" "" 5]⟩ := by
  have h5 : (0 : ℚ) < 5 := by norm_num
  simp [Server.add_expenses_for_date, parseBatch, parseExpense,
    Server.insertAll, DbHelper.insert_expense, h5]

/-- C3 amended: the create-batch validation requires only that every
item have all three fields present and a strictly positive amount;
empty-string `category` or `notes` does not cause rejection.  The 422
outcome holds exactly when some item misses a field or has a
non-positive amount. -/
theorem add_expenses_validation_characterization (db : Option DBState)
    (d : Date) (body : List RawExpense) :
    (Server.add_expenses_for_date db d body).response = Except.error 422 ↔
      ∃ r ∈ body, r.category = none ∨ r.notes = none ∨ r.amount = none ∨
        ∃ a, r.amount = some a ∧ a ≤ 0 := by
  simp only [add_expenses_422_iff, parseBatch_eq_none_iff,
    parseExpense_eq_none_iff]

/-- Pairing the generated ids with the submitted items positionally
reconstructs exactly the rows the insert loop persists. -/
theorem zip_genIds_eq_genRows (d : Date) :
    ∀ (es : List Expense) (base : Nat),
      ((genIds base es.length).zip es).map
          (fun p => (⟨p.1, d, p.2.category, p.2.notes, p.2.amount⟩ : Row)) =
        genRows base d es := by
  intro es
  induction es with
  | nil => intro base; rfl
  | cons e es ih =>
    intro base
    simp [genIds, genRows, List.zip_cons_cons, ih]

/-- C4: for a body that validates to `es` (size N = body length) and a
configured storage handle, the response is a success whose
`inserted_count` is N, whose `inserted_ids` has length N, and such that
zipping the i-th returned id with the i-th submitted item yields
precisely the i-th newly persisted row: ids are reported in submission
order and each id is the one generated for its item. -/
theorem add_expenses_ids_match_submission_order (st : DBState) (d : Date)
    (body : List RawExpense) (es : List Expense)
    (h : parseBatch body = some es) :
    ∃ resp : CreateResponse,
      (Server.add_expenses_for_date (some st) d body).response =
          Except.ok resp ∧
        resp.inserted_count = body.length ∧
        resp.inserted_ids.length = body.length ∧
        (Server.add_expenses_for_date (some st) d body).db =
          some ⟨st.rows ++ (resp.inserted_ids.zip es).map
              (fun p => ⟨p.1, d, p.2.category, p.2.notes, p.2.amount⟩),
            st.nextId + es.length⟩ := by
  refine ⟨⟨(genIds st.nextId es.length).length, genIds st.nextId es.length⟩,
    ?_, ?_, ?_, ?_⟩
  · simp [Server.add_expenses_for_date, h, insertAll_eq]
  · simp [genIds_length, parseBatch_length body es h]
  · simp [genIds_length, parseBatch_length body es h]
  · simp [Server.add_expenses_for_date, h, insertAll_eq,
      zip_genIds_eq_genRows]

/-- The two-item body of the spec's concrete test scenario. -/
def body0 : List RawExpense :=
  [⟨some "Food", some "Lunch", some 25⟩, ⟨some "Transport", some "Bus", some 5⟩]

/-- What `body0` validates to. -/
def es0 : List Expense :=
  [⟨"Food", "Lunch", 25⟩, ⟨"Transport", "Bus", 5⟩]

/-- An empty storage state whose next id is 1. -/
def st0 : DBState := ⟨[], 1⟩

/-- Witness for C4 on the concrete two-item batch of the spec's test
scenario: ids 1 and 2 come back in submission order. -/
theorem add_expenses_ids_match_submission_order_witness :
    parseBatch body0 = some es0 ∧
    ∃ resp : CreateResponse,
      (Server.add_expenses_for_date (some st0) d0 body0).response =
          Except.ok resp ∧
        resp.inserted_count = body0.length ∧
        resp.inserted_ids.length = body0.length ∧
        (Server.add_expenses_for_date (some st0) d0 body0).db =
          some ⟨st0.rows ++ (resp.inserted_ids.zip es0).map
              (fun p => ⟨p.1, d0, p.2.category, p.2.notes, p.2.amount⟩),
            st0.nextId + es0.length⟩ := by
  have h : parseBatch body0 = some es0 := by
    have h25 : (0 : ℚ) < 25 := by norm_num
    have h5 : (0 : ℚ) < 5 := by norm_num
    simp [body0, es0, parseBatch, parseExpense, h25, h5]
  exact ⟨h, add_expenses_ids_match_submission_order st0 d0 body0 es0 h⟩

/-- C5: with a configured storage handle, a summary request whose start
date is after its end date is answered with the client-error outcome
400, the storage state untouched and no data-access call made. -/
theorem summary_rejects_inverted_range (st : DBState) (s e : Date)
    (h : Date.gt s e = true) :
    Server.get_expense_summary (some st) s e =
      ⟨Except.error 400, some st, []⟩ := by
  simp [Server.get_expense_summary, h]

/-- Witness for C5 at the inverted range 2024-08-31 .. 2024-08-01. -/
theorem summary_rejects_inverted_range_witness :
    Date.gt ⟨2024, 8, 31⟩ ⟨2024, 8, 1⟩ = true ∧
      Server.get_expense_summary (some ⟨[], 1⟩) ⟨2024, 8, 31⟩ ⟨2024, 8, 1⟩ =
        ⟨Except.error 400, some ⟨[], 1⟩, []⟩ :=
  ⟨by decide, summary_rejects_inverted_range ⟨[], 1⟩ _ _ (by decide)⟩

/-- C8: on a date with no stored records, the fetch returns the empty
list, the delete reports 0 removed rows and leaves the storage state
(and hence a repeated delete) exactly as it was, and the two endpoints
answer success (empty list, respectively deleted_count 0) rather than
an error. -/
theorem empty_date_delete_noop_and_list_empty (st : DBState) (d : Date)
    (h : ∀ r ∈ st.rows, r.expense_date ≠ d) :
    DbHelper.fetch_expenses_for_date st d = [] ∧
    DbHelper.delete_expenses_for_date st d = (0, st) ∧
    Server.get_expenses_for_date (some st) d =
      ⟨Except.ok [], some st, [DBCall.fetch d]⟩ ∧
    Server.delete_expenses_for_date (some st) d =
      ⟨Except.ok ⟨0⟩, some st, [DBCall.delete d]⟩ := by
  have hnone : st.rows.filter (fun r => decide (r.expense_date = d)) = [] := by
    rw [List.filter_eq_nil_iff]
    intro r hr
    simpa using h r hr
  have hall : st.rows.filter (fun r => !decide (r.expense_date = d)) =
      st.rows := by
    rw [List.filter_eq_self]
    intro r hr
    simpa using h r hr
  refine ⟨?_, ?_, ?_, ?_⟩
  · exact hnone
  · simp [DbHelper.delete_expenses_for_date, hnone, hall]
  · simp [Server.get_expenses_for_date, DbHelper.fetch_expenses_for_date,
      hnone]
  · simp [Server.delete_expenses_for_date, DbHelper.delete_expenses_for_date,
      hnone, hall]

/-- Witness for C8: one stored record on 2024-08-01, queried and
deleted on the distinct date 2024-12-25. -/
theorem empty_date_delete_noop_and_list_empty_witness :
    (∀ r ∈ (⟨[⟨1, d0, "Food", "Lunch", 25⟩], 2⟩ : DBState).rows,
        r.expense_date ≠ d1) ∧
    DbHelper.fetch_expenses_for_date ⟨[⟨1, d0, "Food", "Lunch", 25⟩], 2⟩ d1 =
        [] ∧
      DbHelper.delete_expenses_for_date ⟨[⟨1, d0, "Food", "Lunch", 25⟩], 2⟩
          d1 = (0, ⟨[⟨1, d0, "Food", "Lunch", 25⟩], 2⟩) ∧
      Server.get_expenses_for_date (some ⟨[⟨1, d0, "Food", "Lunch", 25⟩], 2⟩)
          d1 = ⟨Except.ok [], some ⟨[⟨1, d0, "Food", "Lunch", 25⟩], 2⟩,
            [DBCall.fetch d1]⟩ ∧
      Server.delete_expenses_for_date
          (some ⟨[⟨1, d0, "Food", "Lunch", 25⟩], 2⟩) d1 =
        ⟨Except.ok ⟨0⟩, some ⟨[⟨1, d0, "Food", "Lunch", 25⟩], 2⟩,
         [DBCall.delete d1]⟩ := by
  have h : ∀ r ∈ (⟨[⟨1, d0, "Food", "Lunch", 25⟩], 2⟩ : DBState).rows,
      r.expense_date ≠ d1 := by
    intro r hr
    simp at hr
    rw [hr]
    decide
  exact ⟨h, empty_date_delete_noop_and_list_empty _ d1 h⟩

/-- C9: the health probe reports unhealthy/disconnected exactly when the
startup storage handle is absent, degraded/error exactly when it is
present but the probe read raises, and healthy/connected exactly when
the probe read succeeds. -/
theorem health_check_trichotomy (db : Option DBState)
    (probe : ProbeOutcome) :
    (Server.health_check db probe = ⟨"unhealthy", "disconnected"⟩ ↔
        db = none) ∧
    (Server.health_check db probe = ⟨"degraded", "error"⟩ ↔
        db ≠ none ∧ probe = ProbeOutcome.err) ∧
    (Server.health_check db probe = ⟨"healthy", "connected"⟩ ↔
        db ≠ none ∧ probe = ProbeOutcome.ok) := by
  cases db <;> cases probe <;>
    simp [Server.health_check, HealthStatus.mk.injEq]

/-- C2 counterexample: two storage states whose only stored records
differ (they carry different server-generated ids) produce identical
GET /expenses/{date} responses, so the response cannot contain the
stored record's id: `response_model=List[Expense]` strips `id` and
`expense_date` during serialization. -/
theorem get_expenses_response_omits_id :
    (Server.get_expenses_for_date
        (some ⟨[⟨1, d0, "Food", "Lunch", 25⟩], 2⟩) d0).response =
      (Server.get_expenses_for_date
        (some ⟨[⟨2, d0, "Food", "Lunch", 25⟩], 3⟩) d0).response ∧
    (⟨1, d0, "Food", "Lunch", 25⟩ : Row) ≠ ⟨2, d0, "Food", "Lunch", 25⟩ := by
  constructor
  · simp [Server.get_expenses_for_date, DbHelper.fetch_expenses_for_date,
      expense_view]
  · decide

/-- C2 amended: for a configured storage handle, the GET response is a
success listing, for each stored record of the requested date in
storage order, only its `{category, notes, amount}` projection — the
`id` and `expense_date` attributes are omitted by the response model. -/
theorem get_expenses_returns_projection (st : DBState) (d : Date) :
    (Server.get_expenses_for_date (some st) d).response =
      Except.ok ((st.rows.filter (fun r => decide (r.expense_date = d))).map
        (fun r =>
          ({category := r.category, notes := r.notes, amount := r.amount} :
            Expense))) := rfl

/-- C6: when the driver raises during the statement of a mutating
operation (`commit=True`) on a live connection, `_get_db_cursor` rolls
the transaction back, then closes the cursor and the connection, and
the triggering error propagates to the caller (`raise` re-raises it). -/
theorem rollback_precedes_release (s : CursorScenario)
    (hco : s.connectOk = true) (hcu : s.cursorOk = true)
    (hbe : s.bodyErr = true) (hcm : s.commit = true)
    (hcn : s.connected = true) :
    run_get_db_cursor s =
      ([Ev.connect, Ev.acquireCursor, Ev.execute, Ev.rollback,
        Ev.closeCursor, Ev.closeConn], true) := by
  obtain ⟨cm, co, cu, be, cn⟩ := s
  simp_all [run_get_db_cursor]

/-- Witness for C6 at the concrete failing-mutating-statement run. -/
theorem rollback_precedes_release_witness :
    run_get_db_cursor ⟨true, true, true, true, true⟩ =
      ([Ev.connect, Ev.acquireCursor, Ev.execute, Ev.rollback,
        Ev.closeCursor, Ev.closeConn], true) :=
  rollback_precedes_release ⟨true, true, true, true, true⟩ rfl rfl rfl rfl rfl

/-- C7: on every exit path of `_get_db_cursor` over a live connection —
normal return or driver error, mutating or not, whether or not the
cursor was ever acquired — the `finally` block closes the connection
whenever one was opened and closes the cursor whenever one was
acquired, before the call returns or its error propagates. -/
theorem cursor_and_conn_released_every_path (s : CursorScenario)
    (hcn : s.connected = true) :
    (s.connectOk = true → Ev.closeConn ∈ (run_get_db_cursor s).1) ∧
    (s.connectOk = true → s.cursorOk = true →
      Ev.closeCursor ∈ (run_get_db_cursor s).1) := by
  obtain ⟨cm, co, cu, be, cn⟩ := s
  cases cm <;> cases co <;> cases cu <;> cases be <;> cases cn <;>
    revert hcn <;> decide

/-- Witness for C7 at the normal-return mutating run. -/
theorem cursor_and_conn_released_every_path_witness :
    Ev.closeConn ∈ (run_get_db_cursor ⟨true, true, true, false, true⟩).1 ∧
    Ev.closeCursor ∈ (run_get_db_cursor ⟨true, true, true, false, true⟩).1 :=
  ⟨(cursor_and_conn_released_every_path ⟨true, true, true, false, true⟩
      rfl).1 rfl,
   (cursor_and_conn_released_every_path ⟨true, true, true, false, true⟩
      rfl).2 rfl rfl⟩

end ExpenseTracker
